import Mathlib

/-!
Verification of the varstored PCI transport shim (`pci.c`) and the
build-time auth descriptor generator (`create-auth.c`).

Machine integers are modelled as `Nat` with explicit truncation
(`% 2 ^ w`, `&&& mask`) where the C code's integer conversions matter.
Byte buffers are modelled as `List Nat` of byte values.
-/

namespace Varstored

/-- Little-endian encoding of `v` on `w` bytes (models storing a `w`-byte
unsigned integer field of a packed struct). -/
def leBytes (w : Nat) (v : Nat) : List Nat :=
  (List.range w).map (fun i => (v >>> (8 * i)) % 256)

theorem leBytes_length (w v : Nat) : (leBytes w v).length = w := by
  simp [leBytes]

/-! ## create-auth.c: the build-time auth generator -/

/-- The fixed Citrix signature-owner GUID, bytes exactly as in the
`citrix_guid` initializer of create-auth.c. -/
def citrix_guid : List Nat :=
  [0x35, 0xc5, 0xac, 0xc0, 0xc8, 0x25, 0x46, 0x64,
   0x92, 0x5b, 0x5d, 0xd7, 0xd0, 0xb2, 0xf5, 0xaa]

/-- The Microsoft signature-owner GUID, bytes exactly as in the
`microsoft_guid` initializer of create-auth.c. -/
def microsoft_guid : List Nat :=
  [0xbd, 0x9a, 0xfa, 0x77, 0x59, 0x03, 0x32, 0x4d,
   0xbd, 0x60, 0x28, 0xf4, 0xe7, 0x8f, 0x78, 0x4b]

/-- `gEfiGlobalVariableGuid` (EFI_GLOBAL_VARIABLE, 8BE4DF61-93CA-11D2-AA0D-00E098032B8C),
from the repository's guid.h (header not under src/; standard UEFI value). -/
def gEfiGlobalVariableGuid : List Nat :=
  [0x61, 0xdf, 0xe4, 0x8b, 0xca, 0x93, 0xd2, 0x11,
   0xaa, 0x0d, 0x00, 0xe0, 0x98, 0x03, 0x2b, 0x8c]

/-- `gEfiImageSecurityDatabaseGuid` (D719B2CB-3D3A-4596-A3BC-DAD00E67656F),
from the repository's guid.h (header not under src/; standard UEFI value). -/
def gEfiImageSecurityDatabaseGuid : List Nat :=
  [0xcb, 0xb2, 0x19, 0xd7, 0x3a, 0x3d, 0x96, 0x45,
   0xa3, 0xbc, 0xda, 0xd0, 0x0e, 0x67, 0x65, 0x6f]

/-- `gEfiCertX509Guid` (A5C059A1-94E4-4AA7-87B5-AB155C2BF072), from guid.h. -/
def gEfiCertX509Guid : List Nat :=
  [0xa1, 0x59, 0xc0, 0xa5, 0xe4, 0x94, 0xa7, 0x4a,
   0x87, 0xb5, 0xab, 0x15, 0x5c, 0x2b, 0xf0, 0x72]

/-- `gEfiCertPkcs7Guid` (4AAFD29D-68DF-49EE-8AA9-347D375665A7), from guid.h. -/
def gEfiCertPkcs7Guid : List Nat :=
  [0x9d, 0xd2, 0xaf, 0x4a, 0xdf, 0x68, 0xee, 0x49,
   0x8a, 0xa9, 0x34, 0x7d, 0x37, 0x56, 0x65, 0xa7]

/-- `WIN_CERT_TYPE_EFI_GUID` (efi.h, standard UEFI value). -/
def WIN_CERT_TYPE_EFI_GUID : Nat := 0x0ef1

/-- The attribute word create-auth.c uses:
`ATTR_BRNV | EFI_VARIABLE_TIME_BASED_AUTHENTICATED_WRITE_ACCESS`
= (NV | BS | RT) | TBAW = 0x27 (attribute flag values from efi.h). -/
def AUTH_ATTRS : Nat := 0x27

/-- One iteration of the `certs_to_sig_list` loop: an EFI_SIGNATURE_LIST
holding a single certificate.  Layout per efi.h: SignatureType GUID (16),
SignatureListSize u32, SignatureHeaderSize u32, SignatureSize u32
(sizeof(EFI_SIGNATURE_LIST) = 28), then one EFI_SIGNATURE_DATA =
SignatureOwner GUID (16, = offsetof(EFI_SIGNATURE_DATA, SignatureData))
followed by the DER certificate. -/
def sig_list_one (vendor_guid : List Nat) (cert : List Nat) : List Nat :=
  gEfiCertX509Guid
    ++ leBytes 4 (28 + (16 + cert.length))
    ++ leBytes 4 0
    ++ leBytes 4 (16 + cert.length)
    ++ vendor_guid
    ++ cert

/-- `certs_to_sig_list`: the loop appends one single-certificate signature
list per input certificate at the running offset of the realloc'd buffer. -/
def certs_to_sig_list (certs : List (List Nat)) (vendor_guid : List Nat) : List Nat :=
  certs.foldl (fun data c => data ++ sig_list_one vendor_guid c) []

/-- The buffer `sign_data` builds and feeds to the PKCS#7 detached signing
operation: sequential memcpy of name, guid, attr (4-byte LE), timestamp
(16 bytes), and the payload data into one contiguous allocation. -/
def sign_data_buf (name guid : List Nat) (attr : Nat) (timestamp data : List Nat) :
    List Nat :=
  name ++ guid ++ leBytes 4 attr ++ timestamp ++ data

/-- `create_descriptor`: the EFI_VARIABLE_AUTHENTICATION_2 descriptor,
truncated at `offsetof(EFI_VARIABLE_AUTHENTICATION_2, AuthInfo.CertData)`
(= 16 + 24 = 40 bytes): TimeStamp (16), then WIN_CERTIFICATE Hdr
{ dwLength u32 = sig_len + offsetof(WIN_CERTIFICATE_UEFI_GUID, CertData)
= sig_len + 24; wRevision u16 = 0x0200; wCertificateType u16 }, then the
CertType GUID. -/
def create_descriptor (sig_len : Nat) (timestamp : List Nat) : List Nat :=
  timestamp
    ++ leBytes 4 (sig_len + 24)
    ++ leBytes 2 0x0200
    ++ leBytes 2 WIN_CERT_TYPE_EFI_GUID
    ++ gEfiCertPkcs7Guid

/-- The variable GUID `main` selects from the name argument: PK and KEK get
the Global namespace GUID, db and dbx the Image Security Database GUID;
any other name makes the tool print "Unsupported variable name" and exit. -/
def variableGuid (nm : String) : Option (List Nat) :=
  if nm = "PK" ∨ nm = "KEK" then some gEfiGlobalVariableGuid
  else if nm = "db" ∨ nm = "dbx" then some gEfiImageSecurityDatabaseGuid
  else none

/-- The signature-owner vendor GUID `main` selects: the Citrix GUID for PK,
the Microsoft GUID otherwise. -/
def vendorGuid (nm : String) : List Nat :=
  if nm = "PK" then citrix_guid else microsoft_guid

/-- The UCS-2 rendering of the name argument: `name[i*2] = argv[..][i];
name[i*2+1] = 0`. -/
def name_ucs2 (nm : String) : List Nat :=
  (nm.data.map (fun c => [c.toNat % 256, 0])).flatten

/-- Result of a successful create-auth run: the message handed to the
PKCS#7 signer and the bytes written to the output file. -/
structure AuthOut where
  message : List Nat
  file : List Nat
deriving Repr, DecidableEq

/-- The create-auth `main` pipeline, for an invocation with a signing key
and certificate.  The PKCS#7 signing operation (OpenSSL) is abstracted as
`signFn`, mapping the signed message to the DER signature; `timestamp` is
the 16-byte serialized EFI_TIME main builds from the current time.  Returns
`none` when the variable name is rejected.  The output file is written as
descriptor, then signature, then signature-list data. -/
def create_auth (signFn : List Nat → List Nat) (nm : String)
    (timestamp : List Nat) (certs : List (List Nat)) : Option AuthOut :=
  match variableGuid nm with
  | none => none
  | some guid =>
      let name := name_ucs2 nm
      let data := certs_to_sig_list certs (vendorGuid nm)
      let msg := sign_data_buf name guid AUTH_ATTRS timestamp data
      let sig := signFn msg
      some ⟨msg, create_descriptor sig.length timestamp ++ sig ++ data⟩

theorem certs_to_sig_list_eq_join (certs : List (List Nat)) (vg : List Nat) :
    certs_to_sig_list certs vg = (certs.map (sig_list_one vg)).flatten := by
  suffices h : ∀ acc : List Nat,
      certs.foldl (fun data c => data ++ sig_list_one vg c) acc =
        acc ++ (certs.map (sig_list_one vg)).flatten by
    simpa [certs_to_sig_list] using h []
  induction certs with
  | nil => intro acc; simp
  | cons c cs ih => intro acc; simp [ih]

theorem create_descriptor_length (sig_len : Nat) (ts : List Nat)
    (hts : ts.length = 16) : (create_descriptor sig_len ts).length = 40 := by
  simp [create_descriptor, hts, gEfiCertPkcs7Guid, leBytes_length]

theorem create_auth_eq (signFn : List Nat → List Nat) (nm : String)
    (ts : List Nat) (certs : List (List Nat)) (guid : List Nat)
    (hg : variableGuid nm = some guid) :
    create_auth signFn nm ts certs =
      some ⟨sign_data_buf (name_ucs2 nm) guid AUTH_ATTRS ts
              (certs_to_sig_list certs (vendorGuid nm)),
            create_descriptor
                (signFn (sign_data_buf (name_ucs2 nm) guid AUTH_ATTRS ts
                  (certs_to_sig_list certs (vendorGuid nm)))).length ts
              ++ signFn (sign_data_buf (name_ucs2 nm) guid AUTH_ATTRS ts
                  (certs_to_sig_list certs (vendorGuid nm)))
              ++ certs_to_sig_list certs (vendorGuid nm)⟩ := by
  unfold create_auth
  rw [hg]

/-- C1: For every invocation of the build-time auth generator with a signing
key and certificate, the byte string over which the PKCS#7 detached
signature is computed is exactly `name_ucs2 || variable_guid (16 bytes) ||
attributes (4 bytes LE) || timestamp (16 bytes) || payload`, where the
payload is the EFI_SIGNATURE_LIST data that follows the descriptor (the
40-byte truncated descriptor plus the signature) in the output file. -/
theorem create_auth_signed_message (signFn : List Nat → List Nat)
    (nm : String) (ts : List Nat) (certs : List (List Nat)) (guid : List Nat)
    (hts : ts.length = 16) (hg : variableGuid nm = some guid) :
    ∃ out, create_auth signFn nm ts certs = some out ∧
      guid.length = 16 ∧
      (leBytes 4 AUTH_ATTRS).length = 4 ∧
      out.message = name_ucs2 nm ++ guid ++ leBytes 4 AUTH_ATTRS ++ ts ++
        out.file.drop (40 + (signFn out.message).length) := by
  have hglen : guid.length = 16 := by
    unfold variableGuid at hg
    split at hg
    · cases hg; decide
    · split at hg
      · cases hg; decide
      · cases hg
  refine ⟨_, create_auth_eq signFn nm ts certs guid hg, hglen,
    leBytes_length 4 _, ?_⟩
  show sign_data_buf (name_ucs2 nm) guid AUTH_ATTRS ts
        (certs_to_sig_list certs (vendorGuid nm)) =
      name_ucs2 nm ++ guid ++ leBytes 4 AUTH_ATTRS ++ ts ++ _
  generalize certs_to_sig_list certs (vendorGuid nm) = data
  generalize signFn (sign_data_buf (name_ucs2 nm) guid AUTH_ATTRS ts data) = sig
  rw [show (40 : Nat) + sig.length =
      (create_descriptor sig.length ts ++ sig).length by
    simp [create_descriptor_length _ _ hts]]
  rw [List.drop_left]
  rfl

/-- Witness for C1 at a concrete invocation (variable PK, one certificate). -/
theorem create_auth_signed_message_witness :
    ∃ out, create_auth (fun _ => [1, 2]) "PK" (List.replicate 16 0) [[0xaa]] =
        some out ∧
      gEfiGlobalVariableGuid.length = 16 ∧
      (leBytes 4 AUTH_ATTRS).length = 4 ∧
      out.message = name_ucs2 "PK" ++ gEfiGlobalVariableGuid ++
        leBytes 4 AUTH_ATTRS ++ List.replicate 16 0 ++
        out.file.drop (40 + ((fun _ => [1, 2]) out.message).length) :=
  create_auth_signed_message (fun _ => [1, 2]) "PK" (List.replicate 16 0)
    [[0xaa]] gEfiGlobalVariableGuid (by decide) (by decide)

theorem sig_list_one_expand (vg c : List Nat) :
    sig_list_one vg c =
      gEfiCertX509Guid ++ leBytes 4 (44 + c.length) ++ leBytes 4 0 ++
        leBytes 4 (16 + c.length) ++ vg ++ c := by
  unfold sig_list_one
  rw [show 28 + (16 + c.length) = 44 + c.length from by omega]

/-- C7: For every successful run of the build-time auth generator, the
output file is exactly: the EFI_VARIABLE_AUTHENTICATION_2 descriptor
truncated at the CertData offset (timestamp, dwLength = len(PKCS7) + 24
where 24 is the CertData offset inside WIN_CERTIFICATE_UEFI_GUID,
wRevision = 0x0200, wCertificateType = WIN_CERT_TYPE_EFI_GUID, CertType =
the PKCS7 cert-type GUID), then the PKCS#7 DER signature, then the
EFI_SIGNATURE_LIST payload consisting of one single-entry signature list
per input certificate. -/
theorem create_auth_file_layout (signFn : List Nat → List Nat)
    (nm : String) (ts : List Nat) (certs : List (List Nat)) (guid : List Nat)
    (hg : variableGuid nm = some guid) :
    ∃ out, create_auth signFn nm ts certs = some out ∧
      out.file =
        (ts ++ leBytes 4 ((signFn out.message).length + 24) ++ leBytes 2 0x0200
            ++ leBytes 2 WIN_CERT_TYPE_EFI_GUID ++ gEfiCertPkcs7Guid)
          ++ signFn out.message
          ++ (certs.map (fun c =>
                gEfiCertX509Guid ++ leBytes 4 (44 + c.length) ++ leBytes 4 0 ++
                  leBytes 4 (16 + c.length) ++ vendorGuid nm ++ c)).flatten := by
  refine ⟨_, create_auth_eq signFn nm ts certs guid hg, ?_⟩
  show create_descriptor _ ts ++ _ ++ certs_to_sig_list certs (vendorGuid nm) = _
  have hmap : List.map (sig_list_one (vendorGuid nm)) certs =
      List.map (fun c =>
        gEfiCertX509Guid ++ leBytes 4 (44 + c.length) ++ leBytes 4 0 ++
          leBytes 4 (16 + c.length) ++ vendorGuid nm ++ c) certs :=
    List.map_congr_left (fun c _ => sig_list_one_expand _ c)
  rw [certs_to_sig_list_eq_join, hmap]
  rfl

/-- Witness for C7 at a concrete invocation (variable db, two certificates). -/
theorem create_auth_file_layout_witness :
    ∃ out, create_auth (fun m => [m.length]) "db" (List.replicate 16 1)
        [[5], [6, 7]] = some out ∧
      out.file =
        (List.replicate 16 1 ++
            leBytes 4 (((fun (m : List Nat) => [m.length]) out.message).length + 24)
            ++ leBytes 2 0x0200
            ++ leBytes 2 WIN_CERT_TYPE_EFI_GUID ++ gEfiCertPkcs7Guid)
          ++ (fun (m : List Nat) => [m.length]) out.message
          ++ ([[5], [6, 7]].map (fun c =>
                gEfiCertX509Guid ++ leBytes 4 (44 + c.length) ++ leBytes 4 0 ++
                  leBytes 4 (16 + c.length) ++ vendorGuid "db" ++ c)).flatten :=
  create_auth_file_layout (fun m => [m.length]) "db" (List.replicate 16 1)
    [[5], [6, 7]] gEfiImageSecurityDatabaseGuid (by decide)

/-- C8: The build-time auth generator uses the Global-namespace variable
GUID for variables named PK and KEK and the Image-Security-Database GUID
for db and dbx, rejects every other variable name, and sets the
signature-owner vendor GUID in the payload to the fixed Citrix GUID for PK
and to the Microsoft GUID for KEK, db, and dbx. -/
theorem create_auth_guid_selection (nm : String)
    (h : ¬(nm = "PK" ∨ nm = "KEK" ∨ nm = "db" ∨ nm = "dbx")) :
    variableGuid "PK" = some gEfiGlobalVariableGuid ∧
    variableGuid "KEK" = some gEfiGlobalVariableGuid ∧
    variableGuid "db" = some gEfiImageSecurityDatabaseGuid ∧
    variableGuid "dbx" = some gEfiImageSecurityDatabaseGuid ∧
    variableGuid nm = none ∧
    (∀ signFn ts certs, create_auth signFn nm ts certs = none) ∧
    vendorGuid "PK" = citrix_guid ∧
    vendorGuid "KEK" = microsoft_guid ∧
    vendorGuid "db" = microsoft_guid ∧
    vendorGuid "dbx" = microsoft_guid := by
  have hnone : variableGuid nm = none := by
    unfold variableGuid
    rw [if_neg, if_neg]
    · intro hc
      exact h (Or.elim hc (fun h1 => Or.inr (Or.inr (Or.inl h1)))
        (fun h1 => Or.inr (Or.inr (Or.inr h1))))
    · intro hc
      exact h (Or.elim hc Or.inl (fun h1 => Or.inr (Or.inl h1)))
  refine ⟨by decide, by decide, by decide, by decide, hnone, ?_,
    by decide, by decide, by decide, by decide⟩
  intro signFn ts certs
  unfold create_auth
  rw [hnone]

/-- Witness for C8 at a concrete rejected variable name. -/
theorem create_auth_guid_selection_witness :
    variableGuid "PK" = some gEfiGlobalVariableGuid ∧
    variableGuid "KEK" = some gEfiGlobalVariableGuid ∧
    variableGuid "db" = some gEfiImageSecurityDatabaseGuid ∧
    variableGuid "dbx" = some gEfiImageSecurityDatabaseGuid ∧
    variableGuid "MokList" = none ∧
    (∀ signFn ts certs, create_auth signFn "MokList" ts certs = none) ∧
    vendorGuid "PK" = citrix_guid ∧
    vendorGuid "KEK" = microsoft_guid ∧
    vendorGuid "db" = microsoft_guid ∧
    vendorGuid "dbx" = microsoft_guid :=
  create_auth_guid_selection "MokList" (by decide)

/-! ## pci.c: the PCI transport shim

Constants below marked pci.h come from the repository's include/pci.h
(header not under src/); their values are the standard PCI register layout
the spec cites (256-byte config space, 64-byte header, BAR0 at 0x10, ...).
-/

/-- pci.h: size of the synthetic configuration space. -/
def PCI_CONFIG_SIZE : Nat := 256

/-- pci.h: size of the type-0 configuration header. -/
def PCI_CONFIG_HEADER_SIZE : Nat := 64

/-- pci.h: number of BARs. -/
def PCI_NUM_BAR : Nat := 6

/-- pci.h: sentinel address of an unmapped BAR (`~0u`). -/
def PCI_BAR_UNMAPPED : Nat := 2 ^ 32 - 1

def PCI_COMMAND : Nat := 0x04
def PCI_COMMAND_IO : Nat := 0x01
def PCI_COMMAND_MEMORY : Nat := 0x02
def PCI_BASE_ADDRESS_0 : Nat := 0x10

/-- `PCI_BASE_ADDRESS_MEM_MASK` (`~0x0f`) as a uint32. -/
def PCI_BASE_ADDRESS_MEM_MASK : Nat := 0xfffffff0

/-- `PCI_BASE_ADDRESS_IO_MASK` (`~0x03`) as a uint32. -/
def PCI_BASE_ADDRESS_IO_MASK : Nat := 0xfffffffc

/-- One `pci_bar_t` slot.  The `ops` and `priv` fields are the handler
table and its closure argument; they do not influence the configuration
state machine and are omitted from the state (BAR handler dispatch is
modelled separately by `pci_bar_read`/`pci_bar_write_calls`). -/
structure pci_bar_t where
  enable : Bool
  is_mmio : Bool
  addr : Nat
  size : Nat
deriving Repr, DecidableEq

instance : Inhabited pci_bar_t := ⟨⟨false, false, 0, 0⟩⟩

/-- The file-scope `pci` state of pci.c: registered BDF, the 256-byte
config space, the per-byte writable mask, and the BAR slots.  The
`xch`/`domid`/`ioservid` handles and the IRQ fields are hypervisor plumbing
untouched by the claims. -/
structure pci_t where
  bdf : Nat
  config : List Nat
  mask : List Nat
  bar : List pci_bar_t
deriving Repr, DecidableEq

/-- `memcpy(&v, &cfg[off], n)` for a little-endian `n`-byte unsigned
integer field. -/
def le_read (cfg : List Nat) (off n : Nat) : Nat :=
  (List.range n).foldl (fun v i => v ||| (cfg.getD (off + i) 0) <<< (8 * i)) 0

/-- The base address decoded from a BAR's config register: the raw
little-endian dword masked by the address mask of the BAR's space type
(`PCI_BASE_ADDRESS_MEM_MASK` for MMIO BARs, `PCI_BASE_ADDRESS_IO_MASK`
for port-I/O BARs). -/
def bar_decoded_base (cfg : List Nat) (bar : pci_bar_t) (index : Nat) : Nat :=
  if bar.is_mmio then
    le_read cfg (PCI_BASE_ADDRESS_0 + index * 4) 4 &&& PCI_BASE_ADDRESS_MEM_MASK
  else
    le_read cfg (PCI_BASE_ADDRESS_0 + index * 4) 4 &&& PCI_BASE_ADDRESS_IO_MASK

/-- The all-ones size-probe pattern `~(size - 1)` as a uint32
(`mask` in `pci_update_bar`). -/
def bar_size_probe (bar : pci_bar_t) : Nat :=
  (2 ^ 32 - 1) ^^^ ((bar.size + 2 ^ 32 - 1) % 2 ^ 32)

/-- The address `pci_update_bar` computes for a BAR from the current
config space: the BAR register masked by the space's address mask, forced
to `PCI_BAR_UNMAPPED` when the matching COMMAND enable bit is clear, and
forced to `PCI_BAR_UNMAPPED` when it equals 0 or the size-probe pattern. -/
def bar_target (cfg : List Nat) (bar : pci_bar_t) (index : Nat) : Nat :=
  let addr2 := if (le_read cfg PCI_COMMAND 2 &&& PCI_COMMAND_IO = 0 ∧ bar.is_mmio = false) ∨
                  (le_read cfg PCI_COMMAND 2 &&& PCI_COMMAND_MEMORY = 0 ∧ bar.is_mmio = true)
               then PCI_BAR_UNMAPPED else bar_decoded_base cfg bar index
  if addr2 = 0 ∨ addr2 = bar_size_probe bar then PCI_BAR_UNMAPPED else addr2

/-- Store address `a` into BAR slot `index`. -/
def set_bar_addr (s : pci_t) (index a : Nat) : pci_t :=
  { s with bar := s.bar.set index { s.bar.getD index default with addr := a } }

/-- `pci_update_bar`: a disabled BAR is left alone; otherwise the BAR's
address becomes `bar_target` (the C unmaps/remaps through the hypervisor
when the address changes; those external calls carry no engine state). -/
def pci_update_bar (s : pci_t) (index : Nat) : pci_t :=
  if (s.bar.getD index default).enable = false then s
  else if (s.bar.getD index default).addr =
      bar_target s.config (s.bar.getD index default) index then s
  else set_bar_addr s index (bar_target s.config (s.bar.getD index default) index)

/-- `pci_update_config`: update every BAR. -/
def pci_update_config (s : pci_t) : pci_t :=
  (List.range PCI_NUM_BAR).foldl pci_update_bar s

/-- `pci_config_read`: the BDF is taken from bits 32.. of the address
(cast to uint32); on mismatch the read returns all-ones.  Otherwise bytes
are gathered little-endian from `config`; an offset at or past
`PCI_CONFIG_SIZE` contributes `0xff << (i + 8)` (sic: the C shifts the
fill byte by `i + 8`, not `i * 8`). -/
def pci_config_read (s : pci_t) (addr size : Nat) : Nat :=
  let sbdf := (addr >>> 32) % 2 ^ 32
  if sbdf ≠ s.bdf then 2 ^ 32 - 1
  else
    ((List.range size).foldl
      (fun v i =>
        if addr % 256 + i < PCI_CONFIG_SIZE then
          v ||| (s.config.getD (addr % 256 + i) 0) <<< (i * 8)
        else
          v ||| 0xff <<< (i + 8))
      0) % 2 ^ 32

/-- The byte-store loop of `pci_config_write`, starting at `off` for `len`
bytes: each in-range byte keeps its bits outside the writable mask and
takes the corresponding little-endian slice of `val` on the bits inside
the mask. -/
def pci_config_write_loop (cfg mask : List Nat) (off len val : Nat) : List Nat :=
  (List.range len).foldl
    (fun c i =>
      if off + i < PCI_CONFIG_SIZE then
        c.set (off + i)
          ((c.getD (off + i) 0 &&& (255 ^^^ mask.getD (off + i) 0)) |||
            ((val >>> (i * 8)) % 256 &&& mask.getD (off + i) 0))
      else c)
    cfg

/-- `pci_config_write`: the BDF is bits 32.. of the address cast to
uint16; on mismatch the call returns with no effect.  Otherwise the offset
is `(addr & 0xff) + (size >> 16)`, the length is `size & 0xffff`, the
masked byte store runs, and the BAR mappings are refreshed. -/
def pci_config_write (s : pci_t) (addr size val : Nat) : pci_t :=
  if (addr >>> 32) % 2 ^ 16 ≠ s.bdf then s
  else
    pci_update_config
      { s with
          config := pci_config_write_loop s.config s.mask
            (addr % 256 + (size >>> 16)) (size % 2 ^ 16) val }

/-- A plain masked config-space store of `len` bytes at `off` followed by
the BAR refresh: the access `pci_config_write` performs once its `addr`
and `size` arguments are decoded. -/
def pci_config_write_at (s : pci_t) (off len val : Nat) : pci_t :=
  pci_update_config
    { s with config := pci_config_write_loop s.config s.mask off len val }

/-- `pci_config_resume`: memcpy the 256 saved bytes over the config space,
then refresh the BAR mappings. -/
def pci_config_resume (s : pci_t) (data : List Nat) : pci_t :=
  pci_update_config { s with config := data.take PCI_CONFIG_SIZE }

/-- C6: `pci_config_write` interprets its `size` argument as an overloaded
encoding of the access: it adds `size >> 16` to the configuration-space
offset (`addr & 0xff`) and uses `size & 0xffff` as the number of bytes to
write. -/
theorem pci_config_write_size_overload (s : pci_t) (addr size val : Nat)
    (h : (addr >>> 32) % 2 ^ 16 = s.bdf) :
    pci_config_write s addr size val =
      pci_config_write_at s (addr % 256 + (size >>> 16)) (size % 2 ^ 16) val := by
  have h' : (addr >>> 32) % 65536 = s.bdf := h
  unfold pci_config_write pci_config_write_at
  simp [h']

/-- Witness for C6 at a concrete state and access. -/
theorem pci_config_write_size_overload_witness :
    pci_config_write ⟨0, List.replicate 256 0, List.replicate 256 0xff, []⟩
        0x12 ((3 <<< 16) + 2) 0xabcd =
      pci_config_write_at ⟨0, List.replicate 256 0, List.replicate 256 0xff, []⟩
        (0x12 + 3) 2 0xabcd :=
  pci_config_write_size_overload _ 0x12 ((3 <<< 16) + 2) 0xabcd (by decide)

theorem getD_set {α : Type} (c : List α) (m j : Nat) (x d : α) :
    (c.set m x).getD j d = if m = j ∧ m < c.length then x else c.getD j d := by
  by_cases hmj : m = j
  · subst hmj
    by_cases hlt : m < c.length
    · simp [List.getD_eq_getElem?_getD, List.getElem?_set_eq_of_lt x hlt, hlt]
    · rw [List.set_eq_of_length_le (Nat.le_of_not_lt hlt)]
      simp [hlt]
  · simp [List.getD_eq_getElem?_getD, List.getElem?_set_ne hmj, hmj]

theorem pci_update_bar_config (s : pci_t) (i : Nat) :
    (pci_update_bar s i).config = s.config := by
  unfold pci_update_bar
  split
  · rfl
  · split <;> rfl

theorem pci_update_bar_mask (s : pci_t) (i : Nat) :
    (pci_update_bar s i).mask = s.mask := by
  unfold pci_update_bar
  split
  · rfl
  · split <;> rfl

theorem pci_update_config_config (s : pci_t) :
    (pci_update_config s).config = s.config := by
  unfold pci_update_config
  generalize List.range PCI_NUM_BAR = L
  induction L generalizing s with
  | nil => rfl
  | cons i L ih => rw [List.foldl_cons, ih, pci_update_bar_config]

theorem pci_update_config_mask (s : pci_t) :
    (pci_update_config s).mask = s.mask := by
  unfold pci_update_config
  generalize List.range PCI_NUM_BAR = L
  induction L generalizing s with
  | nil => rfl
  | cons i L ih => rw [List.foldl_cons, ih, pci_update_bar_mask]

/-- Bits of a config byte whose mask bit is clear survive one pass of the
`pci_config_write` byte-store loop. -/
theorem pci_config_write_loop_frame (mask : List Nat) (off val : Nat)
    (len : Nat) (cfg : List Nat) (j k : Nat) (hk : k < 8)
    (hm : (mask.getD j 0).testBit k = false) :
    ((pci_config_write_loop cfg mask off len val).getD j 0).testBit k =
      ((cfg.getD j 0).testBit k) := by
  unfold pci_config_write_loop
  generalize List.range len = L
  induction L generalizing cfg with
  | nil => rfl
  | cons i L ih =>
      rw [List.foldl_cons, ih]
      split
      · rw [getD_set]
        split
        · rename_i hj
          obtain ⟨hj1, _⟩ := hj
          subst hj1
          rw [Nat.testBit_or, Nat.testBit_and, Nat.testBit_and,
            Nat.testBit_xor, show (255 : Nat) = 2 ^ 8 - 1 from rfl,
            Nat.testBit_two_pow_sub_one, hm]
          simp [hk]
        · rfl
      · rfl

/-- C2: For every `pci_config_write` addressed to the registered BDF and
for every byte of the 256-byte configuration space, the bits of that byte
that are clear in the per-byte writable mask are unchanged by the call:
only bits set in the mask can be mutated.  (After registration the mask
holds exactly the COMMAND-register writable bits, the BAR address bits
above the BAR size, cache-line size, interrupt line, and every byte past
the 64-byte header; the frame property is proved for every state, so in
particular for that mask.) -/
theorem pci_config_write_mask_frame (s : pci_t) (addr size val j k : Nat)
    (hk : k < 8) (hm : (s.mask.getD j 0).testBit k = false) :
    ((pci_config_write s addr size val).config.getD j 0).testBit k =
      ((s.config.getD j 0).testBit k) := by
  unfold pci_config_write
  split
  · rfl
  · rw [pci_update_config_config]
    exact pci_config_write_loop_frame s.mask _ val _ s.config j k hk hm

/-- Witness for C2: a concrete write through a mask with bit 0 of byte 4
clear leaves that bit alone. -/
theorem pci_config_write_mask_frame_witness :
    (((pci_config_write ⟨0, List.replicate 256 0xff, List.replicate 256 0xfe, []⟩
        4 4 0x1234).config.getD 4 0).testBit 0) =
      (((List.replicate 256 0xff : List Nat).getD 4 0).testBit 0) :=
  pci_config_write_mask_frame ⟨0, List.replicate 256 0xff, List.replicate 256 0xfe, []⟩
    4 4 0x1234 4 0 (by decide) (by decide)

/-- C10: a `pci_config_write` whose BDF field (bits 32.. of the address,
cast to uint16) differs from the registered BDF leaves the whole state —
config space, masks, BAR mappings — unchanged, and a `pci_config_read`
whose 32-bit BDF field differs returns all-ones regardless of the config
array contents. -/
theorem pci_config_bdf_filter (s : pci_t) (waddr wsize wval raddr rsize : Nat)
    (hw : (waddr >>> 32) % 2 ^ 16 ≠ s.bdf)
    (hr : (raddr >>> 32) % 2 ^ 32 ≠ s.bdf) :
    pci_config_write s waddr wsize wval = s ∧
    pci_config_read s raddr rsize = 2 ^ 32 - 1 ∧
    (∀ cfg, pci_config_read { s with config := cfg } raddr rsize = 2 ^ 32 - 1) := by
  refine ⟨?_, ?_, fun cfg => ?_⟩
  · unfold pci_config_write
    exact if_pos hw
  · unfold pci_config_read
    exact if_pos hr
  · unfold pci_config_read
    exact if_pos hr

/-- Witness for C10 at a concrete state and mismatched addresses. -/
theorem pci_config_bdf_filter_witness :
    pci_config_write ⟨5, List.replicate 256 0, List.replicate 256 0, []⟩ 0 4 7 =
      ⟨5, List.replicate 256 0, List.replicate 256 0, []⟩ ∧
    pci_config_read ⟨5, List.replicate 256 0, List.replicate 256 0, []⟩ 0 4 =
      2 ^ 32 - 1 ∧
    (∀ cfg, pci_config_read
        { (⟨5, List.replicate 256 0, List.replicate 256 0, []⟩ : pci_t) with
            config := cfg } 0 4 = 2 ^ 32 - 1) :=
  pci_config_bdf_filter ⟨5, List.replicate 256 0, List.replicate 256 0, []⟩
    0 4 7 0 4 (by decide) (by decide)

/-- C3 (divergence witness): reading 2 bytes at offset 0xff of a matching
BDF reaches the unhandled offset 0x100 at lane `i = 1`; the code
contributes `0xff << (1 + 8)` instead of placing 0xff in byte lane 1, so
the returned value is 0x1feab — byte lane 1 holds 0xfe, not 0xff as the
claim requires. -/
theorem pci_config_read_unhandled_bug :
    pci_config_read ⟨0, List.replicate 255 0 ++ [0xab], List.replicate 256 0, []⟩
        0xff 2 = 0x1feab ∧
    (0x1feab >>> 8) % 256 = 0xfe ∧ 0xfe ≠ 0xff := by
  refine ⟨by decide, by decide, by decide⟩

/-! ### BAR access decomposition (`pci_bar_read` / `pci_bar_write`)

The handler table (`bar_ops_t`) is modelled as abstract functions with
optional wide entries (`readw`/`readl` may be NULL; `readb`/`writeb` are
mandatory, enforced by `pci_bar_register`).  The offsets below are
relative to the BAR base, i.e. the value of `addr` after the
`addr -= bar->addr` step; the `pci_bar_get` lookup itself is exercised by
the C9 mapping invariant.  Handler return values carry the C return
types, modelled as truncation at the call site. -/

structure bar_ops where
  readb : Nat → Nat
  readw : Option (Nat → Nat)
  readl : Option (Nat → Nat)

/-- The `PCI_BAR_READ` macro: accumulate `count` reads of width `width`
at stride `width`, each shifted left by its cumulative shift. -/
def PCI_BAR_READ (f : Nat → Nat) (width addr count : Nat) : Nat :=
  (List.range count).foldl (fun v i => v ||| f (addr + i * width) <<< (8 * width * i)) 0

/-- `pci_bar_read` after the `addr -= bar->addr` step: native handler when
present, otherwise decomposition into narrower reads. -/
def pci_bar_read (ops : bar_ops) (addr size : Nat) : Nat :=
  if size = 1 then ops.readb addr % 2 ^ 8
  else if size = 2 then
    match ops.readw with
    | none => PCI_BAR_READ (fun a => ops.readb a % 2 ^ 8) 1 addr 2
    | some w => w addr % 2 ^ 16
  else if size = 4 then
    match ops.readl with
    | some l => l addr % 2 ^ 32
    | none =>
        match ops.readw with
        | none => PCI_BAR_READ (fun a => ops.readb a % 2 ^ 8) 1 addr 4
        | some w => PCI_BAR_READ (fun a => w a % 2 ^ 16) 2 addr 2
  else 0

/-- A native little-endian read of `n` bytes of a byte-level memory. -/
def le_bytes_read (mem : Nat → Nat) (addr n : Nat) : Nat :=
  (List.range n).foldl (fun v i => v ||| mem (addr + i) <<< (8 * i)) 0

theorem nat_shiftLeft_or_distrib (a b n : Nat) :
    (a ||| b) <<< n = (a <<< n) ||| (b <<< n) := by
  apply Nat.eq_of_testBit_eq
  intro k
  rcases Nat.lt_or_ge k n with hk | hk
  · simp [Nat.testBit_shiftLeft, Nat.testBit_or, Nat.not_le.mpr hk]
  · simp [Nat.testBit_shiftLeft, Nat.testBit_or, hk]

/-- C5: For a 2- or 4-byte `pci_bar_read` whose handler table lacks the
wide read handler, the value returned is the little-endian composition of
the narrower handler reads (the read at relative offset `addr + i*width`
contributes its result shifted left by `8*width*i` bits), so when the
handlers read a byte-level memory the decomposed read equals a native wide
read of the same bytes. -/
theorem pci_bar_read_decompose (ops : bar_ops) (mem : Nat → Nat) (addr : Nat)
    (hb : ∀ a, ops.readb a % 2 ^ 8 = mem a)
    (hw : ∀ f, ops.readw = some f → ∀ a, f a % 2 ^ 16 = le_bytes_read mem a 2) :
    (ops.readw = none → pci_bar_read ops addr 2 = le_bytes_read mem addr 2) ∧
    (ops.readl = none → pci_bar_read ops addr 4 = le_bytes_read mem addr 4) := by
  have hb' : ∀ a, ops.readb a % 256 = mem a := hb
  constructor
  · intro h2
    unfold pci_bar_read
    rw [if_neg (by omega), if_pos rfl, h2]
    show PCI_BAR_READ _ 1 addr 2 = _
    simp [PCI_BAR_READ, le_bytes_read, List.range_succ, hb']
  · intro h4
    unfold pci_bar_read
    rw [if_neg (by omega), if_neg (by omega), if_pos rfl, h4]
    cases hwcase : ops.readw with
    | none =>
        show PCI_BAR_READ _ 1 addr 4 = _
        simp [PCI_BAR_READ, le_bytes_read, List.range_succ, hb']
    | some w =>
        show PCI_BAR_READ _ 2 addr 2 = _
        have hw2 : ∀ a, w a % 65536 = le_bytes_read mem a 2 := hw w hwcase
        simp [PCI_BAR_READ, le_bytes_read, List.range_succ, hw2]
        simp only [nat_shiftLeft_or_distrib, ← Nat.shiftLeft_add, ← Nat.or_assoc]

/-- Witness for C5: constant handlers over a constant byte memory. -/
theorem pci_bar_read_decompose_witness :
    ((none : Option (Nat → Nat)) = none →
      pci_bar_read ⟨fun _ => 5, none, none⟩ 0 2 = le_bytes_read (fun _ => 5) 0 2) ∧
    ((none : Option (Nat → Nat)) = none →
      pci_bar_read ⟨fun _ => 5, none, none⟩ 0 4 = le_bytes_read (fun _ => 5) 0 4) :=
  pci_bar_read_decompose ⟨fun _ => 5, none, none⟩ (fun _ => 5) 0
    (fun a => by norm_num) (fun f hf => by cases hf)

/-- The `PCI_BAR_WRITE` macro, as the list of handler invocations
`(width, relative offset, value argument)` it performs.  The macro sets
`(_val) = 0;` before the loop (sic), so every decomposed call passes
`0 >> shift`, truncated to the handler's argument width. -/
def PCI_BAR_WRITE_calls (width addr count _val : Nat) : List (Nat × Nat × Nat) :=
  (List.range count).map
    (fun i => (width, addr + i * width, ((0 : Nat) >>> (8 * width * i)) % 2 ^ (8 * width)))

/-- `pci_bar_write` after the `addr -= bar->addr` step, as the list of
handler invocations it performs, given which wide handlers are present. -/
def pci_bar_write_calls (has_writew has_writel : Bool) (addr size val : Nat) :
    List (Nat × Nat × Nat) :=
  if size = 1 then [(1, addr, val % 2 ^ 8)]
  else if size = 2 then
    if has_writew then [(2, addr, val % 2 ^ 16)]
    else PCI_BAR_WRITE_calls 1 addr 2 val
  else if size = 4 then
    if has_writel then [(4, addr, val % 2 ^ 32)]
    else if has_writew then PCI_BAR_WRITE_calls 2 addr 2 val
    else PCI_BAR_WRITE_calls 1 addr 4 val
  else []

/-- C4 (divergence witness): a 2-byte write of 0x1234 decomposed into byte
writes invokes `writeb(0, 0)` and `writeb(1, 0)` — the `PCI_BAR_WRITE`
macro zeroes `_val` before the loop — instead of passing the little-endian
slices 0x34 and 0x12 the claim (and the spec's decomposition emulation)
require. -/
theorem pci_bar_write_zeroed_bug :
    pci_bar_write_calls false false 0 2 0x1234 = [(1, 0, 0), (1, 1, 0)] ∧
    pci_bar_write_calls false false 0 2 0x1234 ≠
      [(1, 0, 0x34), (1, 1, 0x12)] ∧
    (0x1234 >>> 8) % 2 ^ 8 = 0x12 := by
  refine ⟨by decide, by decide, by decide⟩

/-! ### The BAR mapping invariant (C9) -/

/-- The claim's mapping condition for one BAR: the COMMAND enable bit
matching the BAR's space type is set, and the decoded base is neither 0
nor the size-probe pattern. -/
def bar_should_map (cfg : List Nat) (bar : pci_bar_t) (index : Nat) : Prop :=
  (le_read cfg PCI_COMMAND 2 &&&
      (if bar.is_mmio then PCI_COMMAND_MEMORY else PCI_COMMAND_IO)) ≠ 0 ∧
  bar_decoded_base cfg bar index ≠ 0 ∧
  bar_decoded_base cfg bar index ≠ bar_size_probe bar

/-- The claimed invariant at BAR `i`: an enabled BAR is mapped (its
address differs from `PCI_BAR_UNMAPPED`) iff its mapping condition holds
in the current config space. -/
def bar_mapping_inv (s : pci_t) (i : Nat) : Prop :=
  (s.bar.getD i default).enable = true →
    ((s.bar.getD i default).addr ≠ PCI_BAR_UNMAPPED ↔
      bar_should_map s.config (s.bar.getD i default) i)

theorem bar_decoded_base_ne_unmapped (cfg : List Nat) (bar : pci_bar_t)
    (index : Nat) : bar_decoded_base cfg bar index ≠ PCI_BAR_UNMAPPED := by
  have hand : ∀ x m : Nat, m &&& 1 = 0 → (x &&& m) &&& 1 = 0 := by
    intro x m hm
    rw [Nat.and_assoc, hm, Nat.and_zero]
  intro h
  have h1 := congrArg (fun n => n &&& 1) h
  simp only [] at h1
  unfold bar_decoded_base at h1
  by_cases hmm : bar.is_mmio
  · rw [if_pos hmm,
      hand (le_read cfg (PCI_BASE_ADDRESS_0 + index * 4) 4)
        PCI_BASE_ADDRESS_MEM_MASK (by decide)] at h1
    exact absurd h1 (by decide)
  · rw [if_neg hmm,
      hand (le_read cfg (PCI_BASE_ADDRESS_0 + index * 4) 4)
        PCI_BASE_ADDRESS_IO_MASK (by decide)] at h1
    exact absurd h1 (by decide)

/-- `bar_target` is mapped exactly under the claim's condition. -/
theorem bar_target_ne_unmapped_iff (cfg : List Nat) (bar : pci_bar_t)
    (index : Nat) :
    (bar_target cfg bar index ≠ PCI_BAR_UNMAPPED ↔
      bar_should_map cfg bar index) := by
  unfold bar_target bar_should_map
  by_cases hc : (le_read cfg PCI_COMMAND 2 &&& PCI_COMMAND_IO = 0 ∧ bar.is_mmio = false) ∨
      (le_read cfg PCI_COMMAND 2 &&& PCI_COMMAND_MEMORY = 0 ∧ bar.is_mmio = true)
  · simp only [if_pos hc]
    have hout : (if PCI_BAR_UNMAPPED = 0 ∨ PCI_BAR_UNMAPPED = bar_size_probe bar
        then PCI_BAR_UNMAPPED else PCI_BAR_UNMAPPED) = PCI_BAR_UNMAPPED := by
      split <;> rfl
    rw [hout]
    constructor
    · intro h; exact absurd rfl h
    · rintro ⟨h1, -, -⟩
      exfalso
      cases hbm : bar.is_mmio with
      | false =>
          rcases hc with ⟨hz, -⟩ | ⟨-, hmm⟩
          · simp [hbm] at h1; exact h1 hz
          · rw [hbm] at hmm; cases hmm
      | true =>
          rcases hc with ⟨-, hmm⟩ | ⟨hz, -⟩
          · rw [hbm] at hmm; cases hmm
          · simp [hbm] at h1; exact h1 hz
  · simp only [if_neg hc]
    by_cases hz : bar_decoded_base cfg bar index = 0 ∨
        bar_decoded_base cfg bar index = bar_size_probe bar
    · rw [if_pos hz]
      constructor
      · intro h; exact absurd rfl h
      · rintro ⟨-, h2, h3⟩
        rcases hz with hz | hz
        · exact absurd hz h2
        · exact absurd hz h3
    · rw [if_neg hz]
      push_neg at hz
      refine ⟨fun _ => ⟨?_, hz.1, hz.2⟩,
        fun _ => bar_decoded_base_ne_unmapped cfg bar index⟩
      push_neg at hc
      cases hbm : bar.is_mmio with
      | false =>
          intro habs
          simp at habs
          exact hc.1 habs hbm
      | true =>
          intro habs
          simp at habs
          exact hc.2 habs hbm

theorem pci_update_bar_bdf (s : pci_t) (i : Nat) :
    (pci_update_bar s i).bdf = s.bdf := by
  unfold pci_update_bar
  split
  · rfl
  · split <;> rfl

theorem pci_update_bar_barlen (s : pci_t) (i : Nat) :
    (pci_update_bar s i).bar.length = s.bar.length := by
  unfold pci_update_bar
  split
  · rfl
  · split
    · rfl
    · exact List.length_set s.bar i _

theorem pci_update_bar_getD_ne (s : pci_t) (i j : Nat) (hne : i ≠ j) :
    (pci_update_bar s j).bar.getD i default = s.bar.getD i default := by
  unfold pci_update_bar
  split
  · rfl
  · split
    · rfl
    · show (s.bar.set j _).getD i default = _
      rw [getD_set]
      rw [if_neg]
      rintro ⟨hji, -⟩
      exact hne hji.symm

/-- After `pci_update_bar` at its own index: an enabled BAR's slot holds
the target address (other fields preserved); a disabled slot is
untouched. -/
theorem pci_update_bar_getD_self (s : pci_t) (i : Nat) (hi : i < s.bar.length) :
    (pci_update_bar s i).bar.getD i default =
      (if (s.bar.getD i default).enable = true
       then { s.bar.getD i default with
                addr := bar_target s.config (s.bar.getD i default) i }
       else s.bar.getD i default) := by
  unfold pci_update_bar
  by_cases hen : (s.bar.getD i default).enable = false
  · rw [if_pos hen, if_neg (by rw [hen]; simp)]
  · have hen' : (s.bar.getD i default).enable = true := by
      cases h : (s.bar.getD i default).enable
      · exact absurd h hen
      · rfl
    rw [if_neg hen, if_pos hen']
    split
    · rename_i heq
      rw [← heq]
    · show (s.bar.set i _).getD i default = _
      rw [getD_set, if_pos ⟨rfl, hi⟩]

theorem foldl_update_getD_not_mem (L : List Nat) (s : pci_t) (i : Nat)
    (h : i ∉ L) :
    (L.foldl pci_update_bar s).bar.getD i default = s.bar.getD i default := by
  induction L generalizing s with
  | nil => rfl
  | cons j L ih =>
      rw [List.foldl_cons, ih _ (fun hm => h (List.mem_cons_of_mem j hm)),
        pci_update_bar_getD_ne s i j (fun he => h (he ▸ List.mem_cons_self j L))]

theorem foldl_update_config (L : List Nat) (s : pci_t) :
    (L.foldl pci_update_bar s).config = s.config := by
  induction L generalizing s with
  | nil => rfl
  | cons j L ih => rw [List.foldl_cons, ih, pci_update_bar_config]

theorem foldl_update_barlen (L : List Nat) (s : pci_t) :
    (L.foldl pci_update_bar s).bar.length = s.bar.length := by
  induction L generalizing s with
  | nil => rfl
  | cons j L ih => rw [List.foldl_cons, ih, pci_update_bar_barlen]

/-- Effect of a `pci_update_bar` fold on slot `i`, provided `i` occurs
exactly once in the index list. -/
theorem foldl_update_getD (L : List Nat) (s : pci_t) (i : Nat)
    (hi : i < s.bar.length) (hmem : i ∈ L) (hnodup : L.Nodup) :
    (L.foldl pci_update_bar s).bar.getD i default =
      (if (s.bar.getD i default).enable = true
       then { s.bar.getD i default with
                addr := bar_target s.config (s.bar.getD i default) i }
       else s.bar.getD i default) := by
  induction L generalizing s with
  | nil => cases hmem
  | cons j L ih =>
      have hnd := List.nodup_cons.mp hnodup
      rw [List.foldl_cons]
      rcases List.mem_cons.mp hmem with hij | hmem'
      · subst hij
        rw [foldl_update_getD_not_mem L _ i hnd.1]
        exact pci_update_bar_getD_self s i hi
      · have hne : i ≠ j := fun he => hnd.1 (he ▸ hmem')
        rw [ih (pci_update_bar s j)
          (by rw [pci_update_bar_barlen]; exact hi) hmem' hnd.2,
          pci_update_bar_getD_ne s i j hne, pci_update_bar_config]

/-- Effect of `pci_update_config` on slot `i < PCI_NUM_BAR`. -/
theorem pci_update_config_getD (s : pci_t) (i : Nat) (hi6 : i < PCI_NUM_BAR)
    (hi : i < s.bar.length) :
    (pci_update_config s).bar.getD i default =
      (if (s.bar.getD i default).enable = true
       then { s.bar.getD i default with
                addr := bar_target s.config (s.bar.getD i default) i }
       else s.bar.getD i default) :=
  foldl_update_getD (List.range PCI_NUM_BAR) s i hi
    (List.mem_range.mpr hi6) (List.nodup_range PCI_NUM_BAR)

/-- `pci_update_config` establishes the mapping invariant on every slot
it visits (with the registration-time size sanity `0 < size < 2^32`,
which `pci_bar_register`'s `size = 1u << order` guarantees). -/
theorem pci_update_config_establishes (s : pci_t) (i : Nat)
    (hi6 : i < PCI_NUM_BAR) (hi : i < s.bar.length) :
    bar_mapping_inv (pci_update_config s) i := by
  intro hen
  rw [pci_update_config_getD s i hi6 hi] at hen ⊢
  rw [pci_update_config_config]
  by_cases horig : (s.bar.getD i default).enable = true
  · rw [if_pos horig] at hen ⊢
    show bar_target s.config (s.bar.getD i default) i ≠ PCI_BAR_UNMAPPED ↔ _
    have hbs : bar_should_map s.config
        { s.bar.getD i default with
            addr := bar_target s.config (s.bar.getD i default) i } i =
        bar_should_map s.config (s.bar.getD i default) i := rfl
    rw [hbs]
    exact bar_target_ne_unmapped_iff s.config (s.bar.getD i default) i
  · rw [if_neg horig] at hen
    exact absurd hen horig

/-- C9: After a `pci_config_write` or a `pci_config_resume` completes,
each enabled BAR is mapped (its `addr` differs from `PCI_BAR_UNMAPPED`)
iff the COMMAND-register enable bit matching its space type (MEMORY for an
MMIO BAR, IO for a port-I/O BAR) is set in the resulting config space and
the base decoded from its BAR register is neither 0 nor the all-ones
size-probe pattern.  A write whose BDF does not match runs no update and
leaves the state — hence the invariant — unchanged, so its case carries
the invariant as a precondition. -/
theorem pci_bar_mapping_invariant (s : pci_t) (data : List Nat)
    (addr size val i : Nat) (hi6 : i < PCI_NUM_BAR) (hi : i < s.bar.length) :
    bar_mapping_inv (pci_config_resume s data) i ∧
    (((addr >>> 32) % 2 ^ 16 = s.bdf ∨ bar_mapping_inv s i) →
      bar_mapping_inv (pci_config_write s addr size val) i) := by
  constructor
  · unfold pci_config_resume
    exact pci_update_config_establishes _ i hi6 hi
  · intro h
    unfold pci_config_write
    by_cases hbdf : (addr >>> 32) % 2 ^ 16 ≠ s.bdf
    · rw [if_pos hbdf]
      rcases h with h | h
      · exact absurd h hbdf
      · exact h
    · rw [if_neg hbdf]
      exact pci_update_config_establishes _ i hi6 hi

/-- Witness for C9: one enabled MMIO BAR, a resume image and a matching
write. -/
theorem pci_bar_mapping_invariant_witness :
    bar_mapping_inv
      (pci_config_resume ⟨0, List.replicate 256 0, List.replicate 256 0xff,
        [⟨true, true, PCI_BAR_UNMAPPED, 4096⟩]⟩ (List.replicate 256 0)) 0 ∧
    ((((16 : Nat) >>> 32) % 2 ^ 16 =
        (⟨0, List.replicate 256 0, List.replicate 256 0xff,
          [⟨true, true, PCI_BAR_UNMAPPED, 4096⟩]⟩ : pci_t).bdf ∨
      bar_mapping_inv ⟨0, List.replicate 256 0, List.replicate 256 0xff,
        [⟨true, true, PCI_BAR_UNMAPPED, 4096⟩]⟩ 0) →
      bar_mapping_inv
        (pci_config_write ⟨0, List.replicate 256 0, List.replicate 256 0xff,
          [⟨true, true, PCI_BAR_UNMAPPED, 4096⟩]⟩ 16 4 0xfffff000) 0) :=
  pci_bar_mapping_invariant
    ⟨0, List.replicate 256 0, List.replicate 256 0xff,
      [⟨true, true, PCI_BAR_UNMAPPED, 4096⟩]⟩
    (List.replicate 256 0) 16 4 0xfffff000 0 (by decide) (by decide)

end Varstored
